import Mathlib

/-!
Verification of the Mergington High School activity-signup service
(`src/app.py`). The Python module keeps two process-wide dictionaries —
`active_sessions` (session token → teacher username) and `activities`
(activity name → activity record) — and exposes login / logout /
auth-status / signup / unregister handlers on top of them.

Python dictionaries are embedded as association lists with first-binding
semantics (lookup finds the first binding, update rewrites the first
binding, deletion drops the first binding); since CPython dictionaries
have unique keys and preserve insertion order, these operations coincide
with dictionary behaviour on every state reachable from the seed.
Raising an `HTTPException` before any mutation is embedded as returning
`Except.error` carrying the HTTP error, with the caller keeping the old
state.
-/

namespace Mergington

/-- One record of `teachers.json`: a username/password pair, compared in
plaintext by `authenticate_teacher`. -/
structure Teacher where
  username : String
  password : String
deriving DecidableEq, Repr

/-- One value of the `activities` dictionary in `app.py`: description,
schedule, `max_participants` and the ordered `participants` list. -/
structure Activity where
  description : String
  schedule : String
  max_participants : Nat
  participants : List String
deriving DecidableEq, Repr

/-- First-binding lookup in an association list; embeds `d[k]` /
`d.get(k)` on a Python dictionary. -/
def lookupKey (m : List (String × α)) (k : String) : Option α :=
  match m with
  | [] => none
  | (k', v) :: rest => if k' = k then some v else lookupKey rest k

/-- Key-membership test; embeds Python's `k in d`. -/
def containsKey (m : List (String × α)) (k : String) : Bool :=
  (lookupKey m k).isSome

/-- Rewrite the first binding of `k` (no-op when `k` is absent); embeds
`d[k] = v` for a key already present. -/
def updateKey (m : List (String × α)) (k : String) (v : α) : List (String × α) :=
  match m with
  | [] => []
  | (k', v') :: rest =>
    if k' = k then (k', v) :: rest else (k', v') :: updateKey rest k v

/-- Drop the first binding of `k`; embeds `del d[k]` on a dictionary. -/
def eraseKey (m : List (String × α)) (k : String) : List (String × α) :=
  match m with
  | [] => []
  | (k', v') :: rest => if k' = k then rest else (k', v') :: eraseKey rest k

/-- Dictionary assignment `d[k] = v`: overwrite in place when the key
exists, otherwise append preserving insertion order. -/
def dictInsert (m : List (String × α)) (k : String) (v : α) : List (String × α) :=
  if containsKey m k then updateKey m k v else m ++ [(k, v)]

/-- Remove the first occurrence of `x` (no-op when absent); embeds
Python's `list.remove(x)` on a list known to contain `x`. -/
def removeFirst (l : List String) (x : String) : List String :=
  match l with
  | [] => []
  | y :: rest => if y = x then rest else y :: removeFirst rest x

/-- The whole mutable state of the process: the `activities` dictionary
and the `active_sessions` dictionary. -/
structure AppState where
  activities : List (String × Activity)
  active_sessions : List (String × String)
deriving DecidableEq, Repr

/-- The error outcomes of the handlers: HTTP 401 on missing session or
bad credentials, 404 on unknown activity, 400 on signup/unregister
conflicts. -/
inductive ApiError where
  | unauthorized
  | notFound
  | conflict
  | invalidCredentials
deriving DecidableEq, Repr

/-- A Python value as produced by `session_id and session_id in
active_sessions`: `None` when the cookie is missing, the string itself
when it is falsy (empty), otherwise the boolean membership test.
Captures that `x and y` returns `x` when `x` is falsy. -/
inductive PyValue where
  | pyNone
  | pyBool (b : Bool)
  | pyStr (s : String)
deriving DecidableEq, Repr

/-- Python truthiness for the values above: `None` and `""` are falsy. -/
def PyValue.truthy : PyValue → Bool
  | PyValue.pyNone => false
  | PyValue.pyBool b => b
  | PyValue.pyStr s => s != ""

/-- `is_teacher_authenticated`: reads the `session_id` cookie and
evaluates `session_id and session_id in active_sessions`. A missing
cookie yields `None`, an empty-string cookie yields the falsy string
itself (short-circuiting before the store lookup), otherwise the result
is the boolean membership test. -/
def is_teacher_authenticated (st : AppState) (cookie : Option String) : PyValue :=
  match cookie with
  | none => PyValue.pyNone
  | some session_id =>
    if session_id == "" then PyValue.pyStr session_id
    else PyValue.pyBool (containsKey st.active_sessions session_id)

/-- `authenticate_teacher`: linear scan of the loaded teacher list for an
exact match on both fields, `False` when the loop falls through. -/
def authenticate_teacher (teachers : List Teacher) (username password : String) : Bool :=
  match teachers with
  | [] => false
  | t :: rest =>
    if t.username == username && t.password == password then true
    else authenticate_teacher rest username password

/-- `login`: on valid credentials, record `token → username` in
`active_sessions` and succeed; otherwise raise 401. The fresh
`uuid.uuid4()` token is a parameter. -/
def login (st : AppState) (teachers : List Teacher)
    (username password token : String) : Except ApiError AppState :=
  if authenticate_teacher teachers username password then
    Except.ok { st with active_sessions := dictInsert st.active_sessions token username }
  else
    Except.error ApiError.invalidCredentials

/-- `logout`: delete the cookie's session entry when
`session_id and session_id in active_sessions`, otherwise leave the
store alone; the handler always returns 200. -/
def logout (st : AppState) (cookie : Option String) : AppState :=
  match cookie with
  | none => st
  | some session_id =>
    if session_id != "" && containsKey st.active_sessions session_id then
      { st with active_sessions := eraseKey st.active_sessions session_id }
    else st

/-- `auth_status`: return the raw `is_teacher_authenticated` value as
the `authenticated` field (bool, `None` or falsy string, exactly as the
handler serialises it) and, when it is truthy, the username resolved
from `active_sessions`. -/
def auth_status (st : AppState) (cookie : Option String) : PyValue × Option String :=
  let authenticated := is_teacher_authenticated st cookie
  if authenticated.truthy then
    match cookie with
    | none => (authenticated, none)
    | some session_id => (authenticated, lookupKey st.active_sessions session_id)
  else (authenticated, none)

/-- `get_activities`: the full activity mapping, unmodified. -/
def get_activities (st : AppState) : List (String × Activity) :=
  st.activities

/-- `signup_for_activity`: 401 without a valid session, 404 on an
unknown activity, 400 when the email is already a participant, otherwise
append the email to that activity's `participants`. -/
def signup_for_activity (st : AppState) (cookie : Option String)
    (activity_name email : String) : Except ApiError AppState :=
  if !(is_teacher_authenticated st cookie).truthy then
    Except.error ApiError.unauthorized
  else
    match lookupKey st.activities activity_name with
    | none => Except.error ApiError.notFound
    | some activity =>
      if email ∈ activity.participants then
        Except.error ApiError.conflict
      else
        let activity' := { activity with participants := activity.participants ++ [email] }
        Except.ok { st with activities := updateKey st.activities activity_name activity' }

/-- `unregister_from_activity`: 401 without a valid session, 404 on an
unknown activity, 400 when the email is not a participant, otherwise
remove the first occurrence of the email from `participants`. -/
def unregister_from_activity (st : AppState) (cookie : Option String)
    (activity_name email : String) : Except ApiError AppState :=
  if !(is_teacher_authenticated st cookie).truthy then
    Except.error ApiError.unauthorized
  else
    match lookupKey st.activities activity_name with
    | none => Except.error ApiError.notFound
    | some activity =>
      if email ∉ activity.participants then
        Except.error ApiError.conflict
      else
        let activity' := { activity with participants := removeFirst activity.participants email }
        Except.ok { st with activities := updateKey st.activities activity_name activity' }

/-- The state a handler leaves behind: the new state on success, the old
state when an `HTTPException` was raised (every raise in `app.py`
happens before any mutation). -/
def stateAfter (st : AppState) (r : Except ApiError AppState) : AppState :=
  match r with
  | Except.ok st' => st'
  | Except.error _ => st

/-- The `Chess Club` seed record, named for use in concrete runs. -/
def chessClub : Activity :=
  { description := "Learn strategies and compete in chess tournaments",
    schedule := "Fridays, 3:30 PM - 5:00 PM",
    max_participants := 12,
    participants := ["michael@mergington.edu", "daniel@mergington.edu"] }

/-- The seed of the `activities` dictionary in `app.py`, in source
order. -/
def seedActivities : List (String × Activity) :=
  [("Chess Club", chessClub),
   ("Programming Class",
    { description := "Learn programming fundamentals and build software projects",
      schedule := "Tuesdays and Thursdays, 3:30 PM - 4:30 PM",
      max_participants := 20,
      participants := ["emma@mergington.edu", "sophia@mergington.edu"] }),
   ("Gym Class",
    { description := "Physical education and sports activities",
      schedule := "Mondays, Wednesdays, Fridays, 2:00 PM - 3:00 PM",
      max_participants := 30,
      participants := ["john@mergington.edu", "olivia@mergington.edu"] }),
   ("Soccer Team",
    { description := "Join the school soccer team and compete in matches",
      schedule := "Tuesdays and Thursdays, 4:00 PM - 5:30 PM",
      max_participants := 22,
      participants := ["liam@mergington.edu", "noah@mergington.edu"] }),
   ("Basketball Team",
    { description := "Practice and play basketball with the school team",
      schedule := "Wednesdays and Fridays, 3:30 PM - 5:00 PM",
      max_participants := 15,
      participants := ["ava@mergington.edu", "mia@mergington.edu"] }),
   ("Art Club",
    { description := "Explore your creativity through painting and drawing",
      schedule := "Thursdays, 3:30 PM - 5:00 PM",
      max_participants := 15,
      participants := ["amelia@mergington.edu", "harper@mergington.edu"] }),
   ("Drama Club",
    { description := "Act, direct, and produce plays and performances",
      schedule := "Mondays and Wednesdays, 4:00 PM - 5:30 PM",
      max_participants := 20,
      participants := ["ella@mergington.edu", "scarlett@mergington.edu"] }),
   ("Math Club",
    { description := "Solve challenging problems and participate in math competitions",
      schedule := "Tuesdays, 3:30 PM - 4:30 PM",
      max_participants := 10,
      participants := ["james@mergington.edu", "benjamin@mergington.edu"] }),
   ("Debate Team",
    { description := "Develop public speaking and argumentation skills",
      schedule := "Fridays, 4:00 PM - 5:30 PM",
      max_participants := 12,
      participants := ["charlotte@mergington.edu", "henry@mergington.edu"] })]

/-- The process state right after startup: the seeded activities and an
empty session store. -/
def initialState : AppState :=
  { activities := seedActivities, active_sessions := [] }

/-- The state obtained by replacing the participants of activity `name`
(currently holding record `a`) with `ps`; the shape of every successful
signup / unregister post-state. -/
def withParticipants (st : AppState) (name : String) (a : Activity)
    (ps : List String) : AppState :=
  { st with activities :=
      updateKey st.activities name { a with participants := ps } }

/-- The teacher record seeded by the repository's `teachers.json`
scenario in the specification. -/
def seedTeachers : List Teacher :=
  [{ username := "mrodriguez", password := "pass123" }]

/-- The state after a successful login of `mrodriguez` under fresh token
`tok`: seeded activities plus one session. -/
def authState : AppState :=
  { activities := seedActivities, active_sessions := [("tok", "mrodriguez")] }

/-- An activity already past its advertised capacity, for exercising
the absent capacity check. -/
def crowdedActivity : Activity :=
  { description := "over capacity",
    schedule := "Mondays",
    max_participants := 1,
    participants := ["a@mergington.edu", "b@mergington.edu"] }

/-- A state holding the over-capacity activity and one live session. -/
def crowdedState : AppState :=
  { activities := [("Crowded Club", crowdedActivity)],
    active_sessions := [("tok", "mrodriguez")] }

/-- A pathological session store holding the empty string as a key, for
exercising the empty-cookie short-circuit. -/
def emptyKeyState : AppState :=
  { activities := seedActivities, active_sessions := [("", "ghost")] }

/-! ### Lemmas about the dictionary embedding -/

theorem lookupKey_updateKey_self (m : List (String × α)) (k : String) (v : α)
    (h : containsKey m k = true) : lookupKey (updateKey m k v) k = some v := by
  induction m with
  | nil => simp [containsKey, lookupKey] at h
  | cons hd tl ih =>
    obtain ⟨k', v'⟩ := hd
    by_cases hk : k' = k
    · simp [updateKey, lookupKey, hk]
    · simp [containsKey, lookupKey, updateKey, hk] at h ⊢
      exact ih h

theorem lookupKey_updateKey_ne (m : List (String × α)) (k k₂ : String) (v : α)
    (h : k₂ ≠ k) : lookupKey (updateKey m k v) k₂ = lookupKey m k₂ := by
  induction m with
  | nil => simp [updateKey]
  | cons hd tl ih =>
    obtain ⟨k', v'⟩ := hd
    by_cases hk : k' = k
    · subst hk
      simp [updateKey, lookupKey, Ne.symm h]
    · simp [updateKey, lookupKey, hk]
      split <;> simp [ih]

theorem keys_updateKey (m : List (String × α)) (k : String) (v : α) :
    (updateKey m k v).map Prod.fst = m.map Prod.fst := by
  induction m with
  | nil => simp [updateKey]
  | cons hd tl ih =>
    obtain ⟨k', v'⟩ := hd
    by_cases hk : k' = k <;> simp [updateKey, hk, ih]

theorem containsKey_iff_mem_keys (m : List (String × α)) (k : String) :
    containsKey m k = true ↔ k ∈ m.map Prod.fst := by
  induction m with
  | nil => simp [containsKey, lookupKey]
  | cons hd tl ih =>
    obtain ⟨k', v'⟩ := hd
    by_cases hk : k' = k
    · subst hk
      simp [containsKey, lookupKey]
    · simp only [containsKey, lookupKey, if_neg hk, List.map_cons, List.mem_cons]
      simp only [containsKey] at ih
      rw [ih]
      simp [Ne.symm hk]

theorem containsKey_updateKey (m : List (String × α)) (k k₂ : String) (v : α) :
    containsKey (updateKey m k v) k₂ = containsKey m k₂ := by
  rw [Bool.eq_iff_iff, containsKey_iff_mem_keys, containsKey_iff_mem_keys,
    keys_updateKey]

theorem updateKey_updateKey (m : List (String × α)) (k : String) (v w : α) :
    updateKey (updateKey m k v) k w = updateKey m k w := by
  induction m with
  | nil => simp [updateKey]
  | cons hd tl ih =>
    obtain ⟨k', v'⟩ := hd
    by_cases hk : k' = k <;> simp [updateKey, hk, ih]

theorem updateKey_lookup_self (m : List (String × α)) (k : String) (v : α)
    (h : lookupKey m k = some v) : updateKey m k v = m := by
  induction m with
  | nil => simp [updateKey]
  | cons hd tl ih =>
    obtain ⟨k', v'⟩ := hd
    by_cases hk : k' = k
    · simp [lookupKey, hk] at h
      simp [updateKey, hk, h]
    · simp [lookupKey, hk] at h
      simp [updateKey, hk, ih h]

theorem eraseKey_append_fresh (m : List (String × α)) (k : String) (v : α)
    (h : containsKey m k = false) : eraseKey (m ++ [(k, v)]) k = m := by
  induction m with
  | nil => simp [eraseKey]
  | cons hd tl ih =>
    obtain ⟨k', v'⟩ := hd
    by_cases hk : k' = k
    · simp [containsKey, lookupKey, hk] at h
    · simp [containsKey, lookupKey, hk] at h
      have h' : containsKey tl k = false := by simp [containsKey, h]
      simp [eraseKey, hk, ih h']

theorem removeFirst_of_split (l₁ l₂ : List String) (x : String)
    (h : x ∉ l₁) : removeFirst (l₁ ++ x :: l₂) x = l₁ ++ l₂ := by
  induction l₁ with
  | nil => simp [removeFirst]
  | cons y tl ih =>
    simp only [List.mem_cons, not_or] at h
    simp [removeFirst, Ne.symm h.1, ih h.2]

theorem removeFirst_append_singleton (l : List String) (x : String)
    (h : x ∉ l) : removeFirst (l ++ [x]) x = l := by
  simpa using removeFirst_of_split l [] x h

theorem is_teacher_authenticated_congr (st st₂ : AppState) (cookie : Option String)
    (h : st₂.active_sessions = st.active_sessions) :
    is_teacher_authenticated st₂ cookie = is_teacher_authenticated st cookie := by
  cases cookie <;> simp [is_teacher_authenticated, h]

theorem signup_ok_elim (st : AppState) (cookie : Option String)
    (name email : String) (st' : AppState)
    (hok : signup_for_activity st cookie name email = Except.ok st') :
    (is_teacher_authenticated st cookie).truthy = true ∧
    ∃ a, lookupKey st.activities name = some a ∧ email ∉ a.participants ∧
      st' = withParticipants st name a (a.participants ++ [email]) := by
  unfold signup_for_activity at hok
  split at hok
  · cases hok
  · rename_i hauth
    split at hok
    · cases hok
    · rename_i a hlook
      split at hok
      · cases hok
      · rename_i hmem
        refine ⟨by simpa using hauth, a, hlook, hmem, ?_⟩
        cases hok
        rfl

theorem unregister_ok_elim (st : AppState) (cookie : Option String)
    (name email : String) (st' : AppState)
    (hok : unregister_from_activity st cookie name email = Except.ok st') :
    (is_teacher_authenticated st cookie).truthy = true ∧
    ∃ a, lookupKey st.activities name = some a ∧ email ∈ a.participants ∧
      st' = withParticipants st name a (removeFirst a.participants email) := by
  unfold unregister_from_activity at hok
  split at hok
  · cases hok
  · rename_i hauth
    split at hok
    · cases hok
    · rename_i a hlook
      split at hok
      · cases hok
      · rename_i hmem
        rw [Decidable.not_not] at hmem
        refine ⟨by simpa using hauth, a, hlook, hmem, ?_⟩
        cases hok
        rfl

theorem unregister_ok_intro (st : AppState) (cookie : Option String)
    (name email : String) (a : Activity)
    (hauth : (is_teacher_authenticated st cookie).truthy = true)
    (hlook : lookupKey st.activities name = some a)
    (hmem : email ∈ a.participants) :
    unregister_from_activity st cookie name email =
      Except.ok (withParticipants st name a (removeFirst a.participants email)) := by
  simp [unregister_from_activity, withParticipants, hauth, hlook, hmem]

theorem authenticate_teacher_iff (teachers : List Teacher) (u p : String) :
    authenticate_teacher teachers u p = true ↔
      ∃ t ∈ teachers, t.username = u ∧ t.password = p := by
  induction teachers with
  | nil => simp [authenticate_teacher]
  | cons t rest ih =>
    simp only [authenticate_teacher, List.mem_cons]
    by_cases h : (t.username == u && t.password == p) = true
    · rw [if_pos h]
      simp only [Bool.and_eq_true, beq_iff_eq] at h
      constructor
      · intro _
        exact ⟨t, Or.inl rfl, h.1, h.2⟩
      · intro _
        rfl
    · rw [if_neg h]
      simp only [Bool.and_eq_true, beq_iff_eq, not_and] at h
      rw [ih]
      constructor
      · rintro ⟨t', ht', hu, hp⟩
        exact ⟨t', Or.inr ht', hu, hp⟩
      · rintro ⟨t', ht' | ht', hu, hp⟩
        · subst ht'
          exact absurd hp (h hu)
        · exact ⟨t', ht', hu, hp⟩

/-! ### The claims -/

/-- Claim C1: for every state and signup request, the handler fails with
Unauthorized when the caller has no valid session; otherwise with
NotFound when the activity name is not a key of the activities map;
otherwise with Conflict when the email is already among that activity's
participants; otherwise it appends the email at the end of the
participants list and succeeds — the checks applied in exactly that
order. -/
theorem C1_signup_check_order (st : AppState) (cookie : Option String)
    (name email : String) :
    ((is_teacher_authenticated st cookie).truthy = false →
      signup_for_activity st cookie name email =
        Except.error ApiError.unauthorized) ∧
    ((is_teacher_authenticated st cookie).truthy = true →
      lookupKey st.activities name = none →
      signup_for_activity st cookie name email =
        Except.error ApiError.notFound) ∧
    (∀ a, (is_teacher_authenticated st cookie).truthy = true →
      lookupKey st.activities name = some a → email ∈ a.participants →
      signup_for_activity st cookie name email =
        Except.error ApiError.conflict) ∧
    (∀ a, (is_teacher_authenticated st cookie).truthy = true →
      lookupKey st.activities name = some a → email ∉ a.participants →
      signup_for_activity st cookie name email =
        Except.ok (withParticipants st name a (a.participants ++ [email]))) := by
  refine ⟨?_, ?_, ?_, ?_⟩
  · intro h
    simp [signup_for_activity, h]
  · intro h1 h2
    simp [signup_for_activity, h1, h2]
  · intro a h1 h2 h3
    simp [signup_for_activity, h1, h2, h3]
  · intro a h1 h2 h3
    simp [signup_for_activity, withParticipants, h1, h2, h3]

/-- Concrete runs of C1: an unauthenticated signup at the seed state, an
unknown activity, a duplicate email, and a fresh email, all settled by
evaluation. -/
theorem C1_signup_check_order_witness :
    signup_for_activity initialState (some "tok") "Chess Club" "new@mergington.edu"
        = Except.error ApiError.unauthorized ∧
    signup_for_activity authState (some "tok") "Knitting Club" "new@mergington.edu"
        = Except.error ApiError.notFound ∧
    signup_for_activity authState (some "tok") "Chess Club" "michael@mergington.edu"
        = Except.error ApiError.conflict ∧
    signup_for_activity authState (some "tok") "Chess Club" "new@mergington.edu"
        = Except.ok (withParticipants authState "Chess Club" chessClub
            (chessClub.participants ++ ["new@mergington.edu"])) :=
  ⟨(C1_signup_check_order initialState (some "tok") "Chess Club"
      "new@mergington.edu").1 (by decide),
   (C1_signup_check_order authState (some "tok") "Knitting Club"
      "new@mergington.edu").2.1 (by decide) (by decide),
   (C1_signup_check_order authState (some "tok") "Chess Club"
      "michael@mergington.edu").2.2.1 chessClub (by decide) (by decide) (by decide),
   (C1_signup_check_order authState (some "tok") "Chess Club"
      "new@mergington.edu").2.2.2 chessClub (by decide) (by decide) (by decide)⟩

/-- Claim C2: signup never checks capacity — for every authenticated
caller, every known activity whose participants list already has length
at least `max_participants`, and every email not among its participants,
signup still succeeds and appends the email. -/
theorem C2_signup_ignores_capacity (st : AppState) (cookie : Option String)
    (name email : String) (a : Activity)
    (hauth : (is_teacher_authenticated st cookie).truthy = true)
    (hlook : lookupKey st.activities name = some a)
    (hfull : a.max_participants ≤ a.participants.length)
    (hmem : email ∉ a.participants) :
    signup_for_activity st cookie name email =
      Except.ok (withParticipants st name a (a.participants ++ [email])) := by
  simp [signup_for_activity, withParticipants, hauth, hlook, hmem]

/-- Concrete run of C2: an activity with 2 participants but capacity 1
still accepts a third signup. -/
theorem C2_signup_ignores_capacity_witness :
    crowdedActivity.max_participants ≤ crowdedActivity.participants.length ∧
    signup_for_activity crowdedState (some "tok") "Crowded Club" "c@mergington.edu"
      = Except.ok (withParticipants crowdedState "Crowded Club" crowdedActivity
          (crowdedActivity.participants ++ ["c@mergington.edu"])) :=
  ⟨by decide,
   C2_signup_ignores_capacity crowdedState (some "tok") "Crowded Club"
     "c@mergington.edu" crowdedActivity (by decide) (by decide) (by decide) (by decide)⟩

/-- Claim C3: for every state and unregister request, the handler fails
with Unauthorized when the caller has no valid session; otherwise with
NotFound when the activity name is not a key of the activities map;
otherwise with Conflict when the email is absent from that activity's
participants; otherwise it removes the first matching occurrence of the
email from the participants list and succeeds. -/
theorem C3_unregister_check_order (st : AppState) (cookie : Option String)
    (name email : String) :
    ((is_teacher_authenticated st cookie).truthy = false →
      unregister_from_activity st cookie name email =
        Except.error ApiError.unauthorized) ∧
    ((is_teacher_authenticated st cookie).truthy = true →
      lookupKey st.activities name = none →
      unregister_from_activity st cookie name email =
        Except.error ApiError.notFound) ∧
    (∀ a, (is_teacher_authenticated st cookie).truthy = true →
      lookupKey st.activities name = some a → email ∉ a.participants →
      unregister_from_activity st cookie name email =
        Except.error ApiError.conflict) ∧
    (∀ a l₁ l₂, (is_teacher_authenticated st cookie).truthy = true →
      lookupKey st.activities name = some a →
      a.participants = l₁ ++ email :: l₂ → email ∉ l₁ →
      unregister_from_activity st cookie name email =
        Except.ok (withParticipants st name a (l₁ ++ l₂))) := by
  refine ⟨?_, ?_, ?_, ?_⟩
  · intro h
    simp [unregister_from_activity, h]
  · intro h1 h2
    simp [unregister_from_activity, h1, h2]
  · intro a h1 h2 h3
    simp [unregister_from_activity, h1, h2, h3]
  · intro a l₁ l₂ h1 h2 h3 h4
    have hmem : email ∈ a.participants := by
      rw [h3]
      simp
    have hrem : removeFirst a.participants email = l₁ ++ l₂ := by
      rw [h3]
      exact removeFirst_of_split l₁ l₂ email h4
    simp [unregister_from_activity, withParticipants, h1, h2, hmem, hrem]

/-- Concrete runs of C3: an unauthenticated unregister at the seed
state, an unknown activity, a not-signed-up email, and the removal of
the first listed Chess Club member. -/
theorem C3_unregister_check_order_witness :
    unregister_from_activity initialState (some "tok") "Chess Club"
        "michael@mergington.edu" = Except.error ApiError.unauthorized ∧
    unregister_from_activity authState (some "tok") "Knitting Club"
        "michael@mergington.edu" = Except.error ApiError.notFound ∧
    unregister_from_activity authState (some "tok") "Chess Club"
        "new@mergington.edu" = Except.error ApiError.conflict ∧
    unregister_from_activity authState (some "tok") "Chess Club"
        "michael@mergington.edu"
      = Except.ok (withParticipants authState "Chess Club" chessClub
          ([] ++ ["daniel@mergington.edu"])) :=
  ⟨(C3_unregister_check_order initialState (some "tok") "Chess Club"
      "michael@mergington.edu").1 (by decide),
   (C3_unregister_check_order authState (some "tok") "Knitting Club"
      "michael@mergington.edu").2.1 (by decide) (by decide),
   (C3_unregister_check_order authState (some "tok") "Chess Club"
      "new@mergington.edu").2.2.1 chessClub (by decide) (by decide) (by decide),
   (C3_unregister_check_order authState (some "tok") "Chess Club"
      "michael@mergington.edu").2.2.2 chessClub [] ["daniel@mergington.edu"]
      (by decide) (by decide) (by decide) (by decide)⟩

/-- Claim C4: a signup or unregister whose session token is missing or
not a key of the session store returns Unauthorized regardless of
whether the activity exists; and on every error outcome the state is
left unchanged (in the embedding every raise happens before any
mutation, so the caller keeps the old state). -/
theorem C4_errors_preserve_state (st : AppState) (cookie : Option String)
    (name email : String) :
    ((cookie = none ∨ ∃ sid, cookie = some sid ∧
        containsKey st.active_sessions sid = false) →
      signup_for_activity st cookie name email =
        Except.error ApiError.unauthorized ∧
      unregister_from_activity st cookie name email =
        Except.error ApiError.unauthorized) ∧
    (∀ e, signup_for_activity st cookie name email = Except.error e →
      stateAfter st (signup_for_activity st cookie name email) = st) ∧
    (∀ e, unregister_from_activity st cookie name email = Except.error e →
      stateAfter st (unregister_from_activity st cookie name email) = st) := by
  refine ⟨?_, ?_, ?_⟩
  · intro h
    have hauth : (is_teacher_authenticated st cookie).truthy = false := by
      rcases h with rfl | ⟨sid, rfl, hsid⟩
      · rfl
      · by_cases he : (sid == "") = true
        · have : sid = "" := by simpa using he
          subst this
          rfl
        · simp [is_teacher_authenticated, PyValue.truthy, he, hsid]
    constructor
    · simp [signup_for_activity, hauth]
    · simp [unregister_from_activity, hauth]
  · intro e he
    rw [he]
    rfl
  · intro e he
    rw [he]
    rfl

/-- Concrete runs of C4: a cookieless signup and a stale-token
unregister at the seed state fail with Unauthorized and leave the state
untouched. -/
theorem C4_errors_preserve_state_witness :
    signup_for_activity initialState none "Chess Club" "x@mergington.edu"
      = Except.error ApiError.unauthorized ∧
    unregister_from_activity initialState (some "stale") "Chess Club"
      "michael@mergington.edu" = Except.error ApiError.unauthorized ∧
    stateAfter initialState
      (signup_for_activity initialState none "Chess Club" "x@mergington.edu")
      = initialState :=
  have h1 := (C4_errors_preserve_state initialState none "Chess Club"
    "x@mergington.edu").1 (Or.inl rfl)
  have h2 := (C4_errors_preserve_state initialState (some "stale") "Chess Club"
    "michael@mergington.edu").1 (Or.inr ⟨"stale", rfl, by decide⟩)
  ⟨h1.1,
   h2.2,
   (C4_errors_preserve_state initialState none "Chess Club"
     "x@mergington.edu").2.1 ApiError.unauthorized h1.1⟩

/-- Claim C5: a successful signup of an email not yet in a
duplicate-free participants list leaves that email in the list exactly
once and keeps the list duplicate-free, and an immediately repeated
signup of the same email yields Conflict with the state unchanged — so
signup never introduces a duplicate. -/
theorem C5_no_duplicate_signup (st : AppState) (cookie : Option String)
    (name email : String) (st' : AppState)
    (hok : signup_for_activity st cookie name email = Except.ok st')
    (hnd : ∀ a, lookupKey st.activities name = some a → a.participants.Nodup) :
    (∃ a', lookupKey st'.activities name = some a' ∧
      a'.participants.count email = 1 ∧ a'.participants.Nodup) ∧
    signup_for_activity st' cookie name email = Except.error ApiError.conflict ∧
    stateAfter st' (signup_for_activity st' cookie name email) = st' := by
  obtain ⟨hauth, a, hlook, hmem, rfl⟩ := signup_ok_elim st cookie name email st' hok
  have hcontains : containsKey st.activities name = true := by
    simp [containsKey, hlook]
  have hlook' : lookupKey (withParticipants st name a
        (a.participants ++ [email])).activities name
      = some { a with participants := a.participants ++ [email] } := by
    simp only [withParticipants]
    exact lookupKey_updateKey_self st.activities name _ hcontains
  have hauth' : (is_teacher_authenticated
      (withParticipants st name a (a.participants ++ [email])) cookie).truthy = true := by
    rw [is_teacher_authenticated_congr st
      (withParticipants st name a (a.participants ++ [email])) cookie rfl]
    exact hauth
  have hconf : signup_for_activity
      (withParticipants st name a (a.participants ++ [email])) cookie name email
      = Except.error ApiError.conflict := by
    simp [signup_for_activity, hauth', hlook']
  refine ⟨⟨_, hlook', ?_, ?_⟩, hconf, ?_⟩
  · simp [List.count_append, List.count_eq_zero_of_not_mem hmem]
  · simp only [List.nodup_append, List.nodup_singleton]
    exact ⟨hnd a hlook, trivial, by simpa [List.disjoint_singleton] using hmem⟩
  · rw [hconf]
    rfl

/-- Concrete run of C5: after signing up a fresh email for Chess Club,
the roster holds it exactly once and stays duplicate-free, and the same
signup repeated is rejected with Conflict. -/
theorem C5_no_duplicate_signup_witness :
    (∃ a', lookupKey (withParticipants authState "Chess Club" chessClub
        (chessClub.participants ++ ["new@mergington.edu"])).activities "Chess Club"
        = some a' ∧
      a'.participants.count "new@mergington.edu" = 1 ∧ a'.participants.Nodup) ∧
    signup_for_activity (withParticipants authState "Chess Club" chessClub
        (chessClub.participants ++ ["new@mergington.edu"])) (some "tok")
        "Chess Club" "new@mergington.edu" = Except.error ApiError.conflict :=
  have h := C5_no_duplicate_signup authState (some "tok") "Chess Club"
    "new@mergington.edu"
    (withParticipants authState "Chess Club" chessClub
      (chessClub.participants ++ ["new@mergington.edu"]))
    rfl
    (fun a ha => by
      have h3 : lookupKey authState.activities "Chess Club" = some chessClub := rfl
      rw [ha] at h3
      have h4 : a = chessClub := Option.some_injective _ h3
      subst h4
      decide)
  ⟨h.1, h.2.1⟩

/-- Claim C6: unregister is the inverse of signup — after a successful
signup of an email not previously in the activity's participants,
unregister with the same arguments succeeds and restores exactly the
prior state, and a second unregister right after that yields Conflict. -/
theorem C6_unregister_inverse (st : AppState) (cookie : Option String)
    (name email : String) (st' : AppState)
    (hok : signup_for_activity st cookie name email = Except.ok st') :
    unregister_from_activity st' cookie name email = Except.ok st ∧
    unregister_from_activity st cookie name email =
      Except.error ApiError.conflict := by
  obtain ⟨hauth, a, hlook, hmem, rfl⟩ := signup_ok_elim st cookie name email st' hok
  have hcontains : containsKey st.activities name = true := by
    simp [containsKey, hlook]
  have hlook' : lookupKey (withParticipants st name a
        (a.participants ++ [email])).activities name
      = some { a with participants := a.participants ++ [email] } := by
    simp only [withParticipants]
    exact lookupKey_updateKey_self st.activities name _ hcontains
  have hauth' : (is_teacher_authenticated
      (withParticipants st name a (a.participants ++ [email])) cookie).truthy = true := by
    rw [is_teacher_authenticated_congr st
      (withParticipants st name a (a.participants ++ [email])) cookie rfl]
    exact hauth
  have hrem : removeFirst (a.participants ++ [email]) email = a.participants :=
    removeFirst_append_singleton a.participants email hmem
  constructor
  · have hstate : withParticipants (withParticipants st name a (a.participants ++ [email]))
        name { a with participants := a.participants ++ [email] }
        (removeFirst ({ a with participants := a.participants ++ [email] } :
          Activity).participants email) = st := by
      simp only [withParticipants, hrem, updateKey_updateKey]
      have heta : ({ a with participants := a.participants } : Activity) = a := rfl
      rw [heta, updateKey_lookup_self st.activities name a hlook]
    rw [unregister_ok_intro (withParticipants st name a (a.participants ++ [email]))
      cookie name email { a with participants := a.participants ++ [email] }
      hauth' hlook' (by simp), hstate]
  · simp [unregister_from_activity, hauth, hlook, hmem]

/-- Concrete run of C6: signing a fresh email up for Chess Club and then
unregistering it restores exactly the prior state, and a second
unregister is rejected with Conflict. -/
theorem C6_unregister_inverse_witness :
    unregister_from_activity
      (withParticipants authState "Chess Club" chessClub
        (chessClub.participants ++ ["new@mergington.edu"]))
      (some "tok") "Chess Club" "new@mergington.edu" = Except.ok authState ∧
    unregister_from_activity authState (some "tok") "Chess Club"
      "new@mergington.edu" = Except.error ApiError.conflict :=
  C6_unregister_inverse authState (some "tok") "Chess Club" "new@mergington.edu"
    (withParticipants authState "Chess Club" chessClub
      (chessClub.participants ++ ["new@mergington.edu"]))
    rfl

/-- Claim C7: authenticate returns true exactly when some loaded teacher
record matches the submitted username and password on both fields
(plaintext comparison), and in particular returns false for every input
on the empty teacher list (credential file absent). -/
theorem C7_authenticate_exact_match (teachers : List Teacher) (u p : String) :
    (authenticate_teacher teachers u p = true ↔
      ∃ t ∈ teachers, t.username = u ∧ t.password = p) ∧
    authenticate_teacher [] u p = false :=
  ⟨authenticate_teacher_iff teachers u p, rfl⟩

/-- Concrete runs of C7: the seeded credentials pass, a wrong password
fails, and every login fails against the empty teacher list. -/
theorem C7_authenticate_exact_match_witness :
    authenticate_teacher seedTeachers "mrodriguez" "pass123" = true ∧
    authenticate_teacher seedTeachers "mrodriguez" "wrong" = false ∧
    authenticate_teacher [] "mrodriguez" "pass123" = false :=
  ⟨(C7_authenticate_exact_match seedTeachers "mrodriguez" "pass123").1.mpr
      ⟨{ username := "mrodriguez", password := "pass123" }, by decide, rfl, rfl⟩,
   by decide,
   (C7_authenticate_exact_match [] "mrodriguez" "pass123").2⟩

/-- Counterexample to C8 as stated: after a concrete login and logout,
an auth-status request carrying no cookie reports `authenticated` as
Python `None` (serialised as JSON null) — the raw falsy value returned
by `is_teacher_authenticated` — not the boolean `false` the claim
requires for the no-cookie case. -/
theorem C8_counterexample_no_cookie :
    login initialState seedTeachers "mrodriguez" "pass123" "tok"
      = Except.ok authState ∧
    (auth_status (logout authState (some "tok")) none).1 = PyValue.pyNone ∧
    PyValue.pyNone ≠ PyValue.pyBool false :=
  ⟨rfl, rfl, by decide⟩

/-- Claim C8 (amended): for a fresh nonempty token recorded by a
successful login, a logout carrying that token removes it from the
session store; afterwards an auth-status request carrying the stale
token reports authenticated:false with username null, one carrying no
cookie reports authenticated:None (JSON null — unauthenticated but not
the boolean false) with username null, and a repeated logout succeeds
and changes nothing. -/
theorem C8_logout_invalidates (st : AppState) (teachers : List Teacher)
    (u p token : String) (st₁ : AppState)
    (htok : token ≠ "")
    (hfresh : containsKey st.active_sessions token = false)
    (hlogin : login st teachers u p token = Except.ok st₁) :
    containsKey (logout st₁ (some token)).active_sessions token = false ∧
    auth_status (logout st₁ (some token)) (some token)
      = (PyValue.pyBool false, none) ∧
    auth_status (logout st₁ (some token)) none = (PyValue.pyNone, none) ∧
    logout (logout st₁ (some token)) (some token) = logout st₁ (some token) := by
  have hne : (token == "") = false := by
    rw [beq_eq_false_iff_ne]
    exact htok
  have hst₁ : st₁ = { st with active_sessions := st.active_sessions ++ [(token, u)] } := by
    unfold login at hlogin
    split at hlogin
    · rw [Except.ok.injEq] at hlogin
      rw [← hlogin]
      simp [dictInsert, hfresh]
    · cases hlogin
  subst hst₁
  have hcontains : containsKey (st.active_sessions ++ [(token, u)]) token = true := by
    rw [containsKey_iff_mem_keys]
    simp
  have herase : eraseKey (st.active_sessions ++ [(token, u)]) token = st.active_sessions :=
    eraseKey_append_fresh st.active_sessions token u hfresh
  have hlogout : logout { st with active_sessions := st.active_sessions ++ [(token, u)] }
      (some token) = st := by
    simp [logout, hne, hcontains, herase, htok]
  rw [hlogout]
  refine ⟨hfresh, ?_, rfl, ?_⟩
  · simp [auth_status, is_teacher_authenticated, PyValue.truthy, hne, hfresh, htok]
  · simp [logout, hne, hfresh, htok]

/-- Concrete run of C8: login of the seeded teacher under token `tok`,
then logout; the store no longer holds the token, auth-status reports
false for the stale token and None for a cookieless request, and a
second logout is a no-op. -/
theorem C8_logout_invalidates_witness :
    containsKey (logout authState (some "tok")).active_sessions "tok" = false ∧
    auth_status (logout authState (some "tok")) (some "tok")
      = (PyValue.pyBool false, none) ∧
    auth_status (logout authState (some "tok")) none = (PyValue.pyNone, none) ∧
    logout (logout authState (some "tok")) (some "tok")
      = logout authState (some "tok") :=
  C8_logout_invalidates initialState seedTeachers "mrodriguez" "pass123" "tok"
    authState (by decide) (by decide) rfl

/-- Claim C9 (frame): login and logout never change the activities map,
the read-only activity listing returns it unmodified, and a successful
signup or unregister keeps the session store, keeps the set of activity
names, changes no other activity's binding, and preserves the
description, schedule and max_participants of the activity it
touches. -/
theorem C9_frame (st : AppState) (cookie : Option String) (teachers : List Teacher)
    (u p token name email : String) :
    (∀ st', login st teachers u p token = Except.ok st' →
      st'.activities = st.activities) ∧
    (logout st cookie).activities = st.activities ∧
    get_activities st = st.activities ∧
    (∀ st', signup_for_activity st cookie name email = Except.ok st' →
      st'.active_sessions = st.active_sessions ∧
      st'.activities.map Prod.fst = st.activities.map Prod.fst ∧
      (∀ k, k ≠ name → lookupKey st'.activities k = lookupKey st.activities k) ∧
      (∀ a a', lookupKey st.activities name = some a →
        lookupKey st'.activities name = some a' →
        a'.description = a.description ∧ a'.schedule = a.schedule ∧
        a'.max_participants = a.max_participants)) ∧
    (∀ st', unregister_from_activity st cookie name email = Except.ok st' →
      st'.active_sessions = st.active_sessions ∧
      st'.activities.map Prod.fst = st.activities.map Prod.fst ∧
      (∀ k, k ≠ name → lookupKey st'.activities k = lookupKey st.activities k) ∧
      (∀ a a', lookupKey st.activities name = some a →
        lookupKey st'.activities name = some a' →
        a'.description = a.description ∧ a'.schedule = a.schedule ∧
        a'.max_participants = a.max_participants)) := by
  refine ⟨?_, ?_, rfl, ?_, ?_⟩
  · intro st' h
    unfold login at h
    split at h
    · cases h
      rfl
    · cases h
  · cases cookie with
    | none => rfl
    | some sid =>
      simp only [logout]
      split
      · rfl
      · rfl
  · intro st' hok
    obtain ⟨hauth, a, hlook, hmem, rfl⟩ := signup_ok_elim st cookie name email st' hok
    have hcontains : containsKey st.activities name = true := by
      simp [containsKey, hlook]
    refine ⟨rfl, ?_, ?_, ?_⟩
    · simp [withParticipants, keys_updateKey]
    · intro k hk
      simp only [withParticipants]
      exact lookupKey_updateKey_ne st.activities name k _ hk
    · intro a0 a' ha0 ha'
      have h1 : lookupKey (withParticipants st name a
            (a.participants ++ [email])).activities name
          = some { a with participants := a.participants ++ [email] } := by
        simp only [withParticipants]
        exact lookupKey_updateKey_self st.activities name _ hcontains
      rw [hlook] at ha0
      have ha0' : a = a0 := Option.some_injective _ ha0
      rw [h1] at ha'
      have ha'' : ({ a with participants := a.participants ++ [email] } : Activity) = a' :=
        Option.some_injective _ ha'
      subst ha0'
      rw [← ha'']
      exact ⟨rfl, rfl, rfl⟩
  · intro st' hok
    obtain ⟨hauth, a, hlook, hmem, rfl⟩ := unregister_ok_elim st cookie name email st' hok
    have hcontains : containsKey st.activities name = true := by
      simp [containsKey, hlook]
    refine ⟨rfl, ?_, ?_, ?_⟩
    · simp [withParticipants, keys_updateKey]
    · intro k hk
      simp only [withParticipants]
      exact lookupKey_updateKey_ne st.activities name k _ hk
    · intro a0 a' ha0 ha'
      have h1 : lookupKey (withParticipants st name a
            (removeFirst a.participants email)).activities name
          = some { a with participants := removeFirst a.participants email } := by
        simp only [withParticipants]
        exact lookupKey_updateKey_self st.activities name _ hcontains
      rw [hlook] at ha0
      have ha0' : a = a0 := Option.some_injective _ ha0
      rw [h1] at ha'
      have ha'' : ({ a with participants := removeFirst a.participants email } : Activity) = a' :=
        Option.some_injective _ ha'
      subst ha0'
      rw [← ha'']
      exact ⟨rfl, rfl, rfl⟩

/-- Concrete run of C9: a successful Chess Club signup keeps the session
store and the set of activity names, and a logout keeps the activity
map. -/
theorem C9_frame_witness :
    (withParticipants authState "Chess Club" chessClub
      (chessClub.participants ++ ["new@mergington.edu"])).active_sessions
        = authState.active_sessions ∧
    (withParticipants authState "Chess Club" chessClub
      (chessClub.participants ++ ["new@mergington.edu"])).activities.map Prod.fst
        = authState.activities.map Prod.fst ∧
    (logout authState (some "tok")).activities = authState.activities := by
  have h := C9_frame authState (some "tok") seedTeachers "mrodriguez" "pass123"
    "tok" "Chess Club" "new@mergington.edu"
  obtain ⟨-, hlogout, -, hsignup, -⟩ := h
  obtain ⟨hsess, hkeys, -, -⟩ := hsignup
    (withParticipants authState "Chess Club" chessClub
      (chessClub.participants ++ ["new@mergington.edu"])) rfl
  exact ⟨hsess, hkeys, hlogout⟩

/-- Claim C10: a request whose session cookie is the empty string is
never authenticated, whatever the session store holds — the check
short-circuits to the falsy string before the store lookup — so signup
and unregister with an empty-string token always fail with
Unauthorized. -/
theorem C10_empty_cookie_unauthorized (st : AppState) (name email : String) :
    is_teacher_authenticated st (some "") = PyValue.pyStr "" ∧
    (is_teacher_authenticated st (some "")).truthy = false ∧
    signup_for_activity st (some "") name email
      = Except.error ApiError.unauthorized ∧
    unregister_from_activity st (some "") name email
      = Except.error ApiError.unauthorized :=
  ⟨rfl, rfl, rfl, rfl⟩

/-- Concrete run of C10: in a store that pathologically maps the empty
string to a user, an empty-string cookie is still rejected. -/
theorem C10_empty_cookie_unauthorized_witness :
    containsKey emptyKeyState.active_sessions "" = true ∧
    (is_teacher_authenticated emptyKeyState (some "")).truthy = false ∧
    signup_for_activity emptyKeyState (some "") "Chess Club" "x@mergington.edu"
      = Except.error ApiError.unauthorized :=
  ⟨by decide,
   (C10_empty_cookie_unauthorized emptyKeyState "Chess Club" "x@mergington.edu").2.1,
   (C10_empty_cookie_unauthorized emptyKeyState "Chess Club" "x@mergington.edu").2.2.1⟩

end Mergington
